import Mathlib

/-!
Shallow embedding of `tools/video_image_converter/video_image_converter_tool.py`
(class `VideoImageConverterTool`).

Modelling conventions:
* Python strings are `String`; string lowering, suffix tests and the
  lexicographic order are implemented on the underlying character lists so
  that every definition evaluates inside the kernel.
* `datetime` values are `Int` seconds; `timedelta(hours=1)` is `3600`.
* The mutable attributes of the tool object (`pending_conversions`,
  `temp_dir`, `error_message`, `output`) form the record ToolState;
  a Python dict is an association list whose keys are unique.
* Python exceptions are `Except String`; a `try/except` block is a `match`
  on the `Except` value of the guarded code.
* External collaborators (the filesystem, `ffmpeg`, PIL, `zipfile`) are
  oracles supplied as explicit arguments (`FileSys`, `ConvEnv`,
  a `getsize` function), so the pure Lean functions can describe every
  outcome of the external calls.
-/

deriving instance DecidableEq for Except

/-- Lowercasing, as `str.lower()` (line 84/87/223 use `filename.lower()`). -/
def py_lower (s : String) : String := String.mk (s.data.map Char.toLower)

/-- Suffix test, as `str.endswith` on the character lists. -/
def ends_with (s suffix : String) : Bool := List.isSuffixOf suffix.data s.data

/-- Lexicographic comparison of character lists by code point, the order
Python uses to compare `str` values in `list.sort()`. -/
def charsLe : List Char → List Char → Bool
  | [], _ => true
  | _ :: _, [] => false
  | a :: as, b :: bs =>
    if a.toNat = b.toNat then charsLe as bs else decide (a.toNat < b.toNat)

/-- The order `image_files.sort()` (line 175) sorts by. -/
def pyLe (a b : String) : Prop := charsLe a.data b.data = true

instance : DecidableRel pyLe := fun a b => by unfold pyLe; infer_instance

/-- `os.path.join(dir, name)` for a relative `name`. -/
def path_join (dir name : String) : String :=
  if dir = "" then name
  else if ends_with dir "/" then dir ++ name
  else dir ++ "/" ++ name

/-- Decimal digit test on a character. -/
def is_digit (c : Char) : Bool := decide (48 ≤ c.toNat) && decide (c.toNat ≤ 57)

/-- `int(...)` applied to the stored decimal `fps` string (lines 126/158);
`none` models the `ValueError` raised on a non-numeric string. -/
def parse_int (s : String) : Option Nat :=
  if s.data ≠ [] && s.data.all is_digit then
    some (s.data.foldl (fun n c => 10 * n + (c.toNat - 48)) 0)
  else none

/-- `_is_video_file` (lines 82-84). -/
def is_video_file (filename : String) : Bool :=
  [".mp4", ".avi", ".mov", ".mkv", ".wmv", ".flv", ".webm", ".m4v"].any
    (fun ext => ends_with (py_lower filename) ext)

/-- `_is_zip_file` (lines 86-87). -/
def is_zip_file (filename : String) : Bool := ends_with (py_lower filename) ".zip"

/-- `_is_image_file` (lines 221-223). -/
def is_image_file (filename : String) : Bool :=
  [".png", ".jpg", ".jpeg", ".gif", ".bmp", ".webp", ".tiff"].any
    (fun ext => ends_with (py_lower filename) ext)

/-- The `file` entry of `input_params` (a dict with `file_path` and
`filename`). -/
structure FileInfo where
  file_path : String
  filename : String
deriving DecidableEq

/-- The `input_params` dict of `execute_tool`; `none` models an absent key,
read through `dict.get` with the defaults of lines 40 and 57-60. -/
structure InputParams where
  file : Option FileInfo
  conversion_type : Option String
  fps : Option String
  quality : Option String
  image_format : Option String
  video_format : Option String
deriving DecidableEq

/-- One value of `self.pending_conversions` (the dict built at lines 62-72). -/
structure Conversion where
  file_path : String
  filename : String
  conversion_type : String
  fps : String
  quality : String
  image_format : String
  video_format : String
  timestamp : Int
  downloaded : Bool
deriving DecidableEq

/-- The mutable attributes of the tool object that the claims touch. -/
structure ToolState where
  pending_conversions : List (String × Conversion)
  temp_dir : String
  error_message : String
  output : String
deriving DecidableEq

/-- Python dict assignment `self.pending_conversions[token] = ...`:
replace in place when the key exists, append otherwise. -/
def dict_insert (m : List (String × Conversion)) (k : String) (v : Conversion) :
    List (String × Conversion) :=
  if m.any (fun e => e.1 == k) then
    m.map (fun e => if e.1 == k then (k, v) else e)
  else m ++ [(k, v)]

/-- Python dict lookup `self.pending_conversions[token]` guarded by
`token in self.pending_conversions`. -/
def lookup_token (m : List (String × Conversion)) (token : String) : Option Conversion :=
  match m with
  | [] => none
  | e :: rest => if e.1 == token then some e.2 else lookup_token rest token

/-- Localized message of line 34. -/
def missing_file_err : String := "Bitte wählen Sie eine Datei aus."

/-- Localized message of line 43. -/
def size_err : String := "Die Datei ist zu groß. Maximale Größe ist 2GB."

/-- Localized message of line 48. -/
def wrong_video_err : String := "Bitte wählen Sie eine Videodatei aus."

/-- Localized message of line 52. -/
def wrong_zip_err : String := "Bitte wählen Sie eine ZIP-Datei mit Bildern aus."

/-- Prefix of the message set by the `except` handler of line 79. -/
def processing_err : String := "Fehler bei der Verarbeitung:"

/-- `self.video_to_images` display label (line 22). -/
def video_to_images_label : String := "Video zu Bildern"

/-- `self.images_to_video` display label (line 23). -/
def images_to_video_label : String := "Bilder zu Video"

/-- `_create_output_html` (lines 89-104), flattened to one line: the claims
never inspect the HTML beyond its existence. -/
def create_output_html (token conversion_type_display : String) : String :=
  "<div class=\"alert alert-success\"><h4>Konvertierung gestartet!</h4><p>Ihre "
    ++ conversion_type_display
    ++ " Konvertierung wurde erfolgreich gestartet.</p>"
    ++ "<a href=\"/download_video_image_conversion/" ++ token
    ++ "\" class=\"btn btn-primary\">Konvertierte Datei herunterladen</a></div>"

/-- Body of `execute_tool` (lines 32-76), i.e. the code inside the `try`.
`getsize` is the oracle for `os.path.getsize`; `none` models the `OSError`
raised on a missing file, which is the only statement of the body that can
raise. `token` stands for the fresh `uuid.uuid4()` string and `now` for
`datetime.now()`. -/
def execute_tool_body (getsize : String → Option Nat) (st : ToolState)
    (input : InputParams) (token : String) (now : Int) :
    Except String (ToolState × Bool) :=
  match input.file with
  | none => Except.ok ({st with error_message := missing_file_err}, false)
  | some file_info =>
    let file_path := file_info.file_path
    let filename := file_info.filename
    let conversion_type := input.conversion_type.getD "video_to_images"
    match getsize file_path with
    | none =>
      Except.error ("[Errno 2] No such file or directory: " ++ file_path)
    | some size =>
      if size > 2 * 1024 * 1024 * 1024 then
        Except.ok ({st with error_message := size_err}, false)
      else if conversion_type == "video_to_images" && !is_video_file filename then
        Except.ok ({st with error_message := wrong_video_err}, false)
      else if conversion_type == "images_to_video" && !is_zip_file filename then
        Except.ok ({st with error_message := wrong_zip_err}, false)
      else
        let conversion : Conversion :=
          { file_path := file_path
            filename := filename
            conversion_type := conversion_type
            fps := input.fps.getD "10"
            quality := input.quality.getD "medium"
            image_format := input.image_format.getD "png"
            video_format := input.video_format.getD "mp4"
            timestamp := now
            downloaded := false }
        let display :=
          if conversion_type == "video_to_images" then video_to_images_label
          else images_to_video_label
        Except.ok
          ({st with
              pending_conversions := dict_insert st.pending_conversions token conversion,
              output := create_output_html token display },
            true)

/-- `execute_tool` (lines 31-80): the `try/except Exception` wrapper around
the body; the handler stores the message and returns `False`. -/
def execute_tool (getsize : String → Option Nat) (st : ToolState)
    (input : InputParams) (token : String) (now : Int) : ToolState × Bool :=
  match execute_tool_body getsize st input token now with
  | Except.ok r => r
  | Except.error e =>
    ({st with error_message := processing_err ++ " " ++ e}, false)

/-- Oracles for the external collaborators of `convert_and_save`:
`zipfile` (reading the uploaded archive), `ffmpeg` and PIL. -/
structure ConvEnv where
  /-- member names of the zip archive at a path, in archive order
  (`zipf.filelist`, line 167); `none` models a `BadZipFile` error on open. -/
  archive_members : String → Option (List String)
  /-- file names that the `ffmpeg` frame-extraction run writes into the
  scratch directory when invoked with the given output pattern (line 141). -/
  run_extract : String → List String
  /-- whether an `ffmpeg` invocation succeeds (lines 141 and 213). -/
  ffmpeg_ok : Bool
  /-- whether PIL can open and re-encode every extracted frame
  (lines 178-189). -/
  pil_ok : Bool

/-- Zero-padded rendering of `i` as in the format `f"frame_{i:04d}"`. -/
def format04 (i : Nat) : String :=
  let s := toString i
  if s.length ≥ 4 then s else String.mk (List.replicate (4 - s.length) '0') ++ s

/-- The renaming loop of lines 175-192: sort the extracted names
(`image_files.sort()`, a stable lexicographic sort) and re-save the i-th
frame under the canonical name `frame_{i:04d}.png`. The pairs are
(canonical new name, original member name). -/
def frame_renames (image_files : List String) : List (String × String) :=
  (List.insertionSort pyLe image_files).enum.map
    (fun p => ("frame_" ++ format04 p.1 ++ ".png", p.2))

/-- `_video_to_images` (lines 124-154). The success value is the returned
archive path together with the frame files zipped into it (lines 144-148:
the scratch-directory listing filtered to the configured extension).
The error value carries the message of the Python exception. -/
def video_to_images (env : ConvEnv) (temp_dir token : String) (c : Conversion) :
    Except String (String × List String) :=
  match parse_int c.fps with
  | none => Except.error ("invalid literal for int() with base 10: " ++ c.fps)
  | some _fps =>
    let image_format := c.image_format
    let temp_image_dir := path_join temp_dir ("images_" ++ token)
    let image_pattern := path_join temp_image_dir ("frame_%04d." ++ image_format)
    if !env.ffmpeg_ok then Except.error "ffmpeg error" else
    let zip_path := path_join temp_dir ("images_" ++ token ++ ".zip")
    let zipped :=
      (env.run_extract image_pattern).filter
        (fun f => ends_with f ("." ++ image_format))
    Except.ok (zip_path, zipped)

/-- Message of the exception raised at line 173. -/
def empty_zip_err : String := "Keine Bilddateien in der ZIP-Datei gefunden"

/-- The `quality_settings` dict of lines 196-200 as (crf, preset);
`none` models the `KeyError` of the subscript at line 201. -/
def quality_settings (q : String) : Option (String × String) :=
  if q == "low" then some ("28", "ultrafast")
  else if q == "medium" then some ("23", "medium")
  else if q == "high" then some ("18", "slow")
  else none

/-- `_images_to_video` (lines 156-219). The success value is the returned
video path together with the canonical frames written by the renaming loop
(pairs of canonical frame name and original archive member). Failure points,
in source order: `int(fps)` (line 158), opening the archive (line 165), the
empty-archive check (lines 172-173), PIL opening/re-encoding the frames
(lines 178-189), the quality-table subscript (line 201), the `ffmpeg`
composition run (line 213). -/
def images_to_video (env : ConvEnv) (temp_dir token : String) (c : Conversion) :
    Except String (String × List (String × String)) :=
  match parse_int c.fps with
  | none => Except.error ("invalid literal for int() with base 10: " ++ c.fps)
  | some _fps =>
    let _temp_image_dir := path_join temp_dir ("extracted_" ++ token)
    match env.archive_members c.file_path with
    | none => Except.error "File is not a zip file"
    | some members =>
      let image_files := members.filter is_image_file
      if image_files.isEmpty then Except.error empty_zip_err else
      if !env.pil_ok then Except.error "cannot identify image file" else
      let renames := frame_renames image_files
      match quality_settings c.quality with
      | none => Except.error ("KeyError: " ++ c.quality)
      | some _settings =>
        if !env.ffmpeg_ok then Except.error "ffmpeg error" else
        let output_path := path_join temp_dir ("video_" ++ token ++ "." ++ c.video_format)
        Except.ok (output_path, renames)

/-- `convert_and_save` (lines 106-122). The lookup and the `downloaded`
check (lines 107-112) precede the `try`; the `except` of lines 120-122
turns any conversion failure into `None`. The function never mutates the
tool state, so the state is returned unchanged on every path. -/
def convert_and_save (env : ConvEnv) (st : ToolState) (token : String) :
    Option String × ToolState :=
  match lookup_token st.pending_conversions token with
  | none => (none, st)
  | some conversion =>
    if conversion.downloaded then (none, st)
    else
      let result : Except String String :=
        if conversion.conversion_type == "video_to_images" then
          (video_to_images env st.temp_dir token conversion).map Prod.fst
        else
          (images_to_video env st.temp_dir token conversion).map Prod.fst
      match result with
      | Except.ok path => (some path, st)
      | Except.error _ => (none, st)

/-- The filesystem as the cleanup pass sees it: which paths exist, and which
`os.remove` calls raise an `OSError`. -/
structure FileSys where
  files : List String
  remove_fails : List String
deriving DecidableEq

/-- `if os.path.exists(p): os.remove(p)` (lines 233-234, 238-239, 243-244);
the error value models the raised `OSError`, which leaves the file in
place. -/
def remove_if_exists (fs : FileSys) (p : String) : Except String FileSys :=
  if fs.files.contains p then
    if fs.remove_fails.contains p then Except.error "OSError"
    else Except.ok {fs with files := fs.files.erase p}
  else Except.ok fs

/-- The `try` body of lines 232-247 for one eligible entry: delete the
source file, then the artifact whose path is derived from the token and the
conversion type; the first raised `OSError` jumps to the `except` handler,
skipping the remaining deletion of this entry. -/
def cleanup_entry (temp_dir : String) (fs : FileSys) (token : String)
    (c : Conversion) : FileSys :=
  match remove_if_exists fs c.file_path with
  | Except.error _ => fs
  | Except.ok fs1 =>
    let artifact :=
      if c.conversion_type == "video_to_images" then
        path_join temp_dir ("images_" ++ token ++ ".zip")
      else
        path_join temp_dir ("video_" ++ token ++ "." ++ c.video_format)
    match remove_if_exists fs1 artifact with
    | Except.error _ => fs1
    | Except.ok fs2 => fs2

/-- The eligibility test of lines 230-231:
`now - conversion["timestamp"] > timedelta(hours=1) or conversion["downloaded"]`. -/
def eligible (now : Int) (c : Conversion) : Bool :=
  decide (now - c.timestamp > 3600) || c.downloaded

/-- The scanning loop of lines 229-249: walk the entries, clean the files of
every eligible entry and collect its token into `tokens_to_remove`. -/
def sweep_scan (temp_dir : String) (now : Int) (l : List (String × Conversion))
    (acc : FileSys × List String) : FileSys × List String :=
  l.foldl
    (fun acc e =>
      if eligible now e.2 then
        (cleanup_entry temp_dir acc.1 e.1 e.2, acc.2 ++ [e.1])
      else acc)
    acc

/-- `cleanup_old_files` (lines 225-252): the scan above followed by the
`pop` loop of lines 251-252 that drops every collected token from
`pending_conversions`. -/
def cleanup_old_files (fs : FileSys) (st : ToolState) (now : Int) :
    FileSys × ToolState :=
  let scanned := sweep_scan st.temp_dir now st.pending_conversions (fs, [])
  (scanned.1,
    {st with pending_conversions :=
      st.pending_conversions.filter (fun e => !scanned.2.contains e.1)})

/-! ### Order properties of the sort relation -/

theorem charsLe_total : ∀ a b : List Char, charsLe a b = true ∨ charsLe b a = true := by
  intro a
  induction a with
  | nil => intro b; left; rfl
  | cons x xs ih =>
    intro b
    cases b with
    | nil => right; rfl
    | cons y ys =>
      by_cases hxy : x.toNat = y.toNat
      · rcases ih ys with h | h
        · left; simp [charsLe, hxy, h]
        · right; simp [charsLe, hxy.symm, h]
      · rcases Nat.lt_or_ge x.toNat y.toNat with h | h
        · left; simp [charsLe, hxy, h]
        · right
          have hyx : y.toNat ≠ x.toNat := fun hh => hxy hh.symm
          have hlt : y.toNat < x.toNat := Nat.lt_of_le_of_ne h hyx
          simp [charsLe, hyx, hlt]

theorem charsLe_trans : ∀ a b c : List Char,
    charsLe a b = true → charsLe b c = true → charsLe a c = true := by
  intro a
  induction a with
  | nil => intro b c _ _; rfl
  | cons x xs ih =>
    intro b c hab hbc
    cases b with
    | nil => simp [charsLe] at hab
    | cons y ys =>
      cases c with
      | nil => simp [charsLe] at hbc
      | cons z zs =>
        simp only [charsLe] at hab hbc ⊢
        by_cases hxy : x.toNat = y.toNat
        · by_cases hyz : y.toNat = z.toNat
          · have hxz : x.toNat = z.toNat := hxy.trans hyz
            simp only [hxy, if_pos rfl] at hab
            simp only [hyz, if_pos rfl] at hbc
            simp only [hxz, if_pos rfl]
            exact ih ys zs hab hbc
          · simp only [if_neg hyz, decide_eq_true_eq] at hbc
            have hxz : x.toNat < z.toNat := hxy ▸ hbc
            simp [Nat.ne_of_lt hxz, hxz]
        · simp only [if_neg hxy, decide_eq_true_eq] at hab
          by_cases hyz : y.toNat = z.toNat
          · have hxz : x.toNat < z.toNat := hyz ▸ hab
            simp [Nat.ne_of_lt hxz, hxz]
          · simp only [if_neg hyz, decide_eq_true_eq] at hbc
            have hxz : x.toNat < z.toNat := Nat.lt_trans hab hbc
            simp [Nat.ne_of_lt hxz, hxz]

instance : IsTotal String pyLe := ⟨fun a b => charsLe_total a.data b.data⟩

instance : IsTrans String pyLe := ⟨fun a b c => charsLe_trans a.data b.data c.data⟩

/-! ### Helper lemmas about the sweep -/

theorem sweep_scan_tokens (td : String) (now : Int) :
    ∀ (l : List (String × Conversion)) (fs : FileSys) (acc : List String),
      (sweep_scan td now l (fs, acc)).2
        = acc ++ (l.filter (fun e => eligible now e.2)).map Prod.fst := by
  intro l
  induction l with
  | nil => intro fs acc; simp [sweep_scan]
  | cons e rest ih =>
    intro fs acc
    by_cases h : eligible now e.2 = true
    · have hstep : sweep_scan td now (e :: rest) (fs, acc)
          = sweep_scan td now rest (cleanup_entry td fs e.1 e.2, acc ++ [e.1]) := by
        simp [sweep_scan, h]
      rw [hstep, ih]
      simp [h]
    · have hstep : sweep_scan td now (e :: rest) (fs, acc)
          = sweep_scan td now rest (fs, acc) := by
        simp [sweep_scan, h]
      rw [hstep, ih]
      simp [h]

theorem eq_of_mem_of_nodup_keys :
    ∀ (l : List (String × Conversion)), (l.map Prod.fst).Nodup →
      ∀ a b : String × Conversion, a ∈ l → b ∈ l → a.1 = b.1 → a = b := by
  intro l
  induction l with
  | nil => intro _ a b ha; cases ha
  | cons e rest ih =>
    intro hnd a b ha hb hab
    rw [List.map_cons, List.nodup_cons] at hnd
    rcases List.mem_cons.mp ha with ha' | ha'
    · rcases List.mem_cons.mp hb with hb' | hb'
      · rw [ha', hb']
      · exfalso
        apply hnd.1
        rw [ha'] at hab
        rw [hab]
        exact List.mem_map_of_mem Prod.fst hb'
    · rcases List.mem_cons.mp hb with hb' | hb'
      · exfalso
        apply hnd.1
        rw [hb'] at hab
        rw [← hab]
        exact List.mem_map_of_mem Prod.fst ha'
      · exact ih hnd.2 a b ha' hb' hab

theorem cleanup_pending_eq (fs : FileSys) (st : ToolState) (now : Int)
    (hnd : (st.pending_conversions.map Prod.fst).Nodup) :
    (cleanup_old_files fs st now).2.pending_conversions
      = st.pending_conversions.filter (fun e => !eligible now e.2) := by
  show st.pending_conversions.filter _ = st.pending_conversions.filter _
  apply List.filter_congr
  intro e he
  obtain ⟨t, c⟩ := e
  rw [sweep_scan_tokens, List.nil_append]
  cases h : eligible now c with
  | true =>
    simp [h]
    exact ⟨c, he, h⟩
  | false =>
    simp [h]
    intro x hx
    have hex : ((t, x) : String × Conversion) = (t, c) :=
      eq_of_mem_of_nodup_keys st.pending_conversions hnd (t, x) (t, c) hx he rfl
    have hxc : x = c := congrArg Prod.snd hex
    rw [hxc]
    exact h

/-! ### Concrete fixtures for witnesses and counterexamples -/

/-- A conversion environment where every external call succeeds. -/
def env_ok : ConvEnv where
  archive_members := fun _ => some ["b.png", "a.png", "notes.txt"]
  run_extract := fun _ => ["frame_0001.png", "frame_0002.png"]
  ffmpeg_ok := true
  pil_ok := true

/-- A pending video-to-images job as `execute_tool` creates it. -/
def conv_v2i : Conversion where
  file_path := "/up/v.mp4"
  filename := "v.mp4"
  conversion_type := "video_to_images"
  fps := "10"
  quality := "medium"
  image_format := "png"
  video_format := "mp4"
  timestamp := 0
  downloaded := false

/-- A pending images-to-video job as `execute_tool` creates it. -/
def conv_i2v : Conversion where
  file_path := "/up/frames.zip"
  filename := "frames.zip"
  conversion_type := "images_to_video"
  fps := "10"
  quality := "medium"
  image_format := "png"
  video_format := "mp4"
  timestamp := 0
  downloaded := false

/-- Tool state holding exactly the job `conv_v2i` under token `tok`. -/
def st_one : ToolState where
  pending_conversions := [("tok", conv_v2i)]
  temp_dir := "/tmp"
  error_message := ""
  output := ""

/-- Tool state with an empty job store. -/
def st_empty : ToolState where
  pending_conversions := []
  temp_dir := "/tmp"
  error_message := ""
  output := ""

/-- Tool state holding only an already-downloaded job under token `tok`. -/
def st_downloaded : ToolState where
  pending_conversions := [("tok", {conv_v2i with downloaded := true})]
  temp_dir := "/tmp"
  error_message := ""
  output := ""

/-! ### C1 -/

/-- C1 counterexample: the claim says a successful `convert_and_save` sets
the job's consumed (`downloaded`) flag before returning the path, so that a
second call with the same token returns null. On the concrete store
`st_one`, the first call succeeds and returns the artifact path, yet the
second call with the same token returns the very same path again instead of
null: no statement of `convert_and_save` ever writes the flag. -/
theorem convert_and_save_redelivers :
    (convert_and_save env_ok st_one "tok").1 = some "/tmp/images_tok.zip" ∧
    (convert_and_save env_ok (convert_and_save env_ok st_one "tok").2 "tok").1
      = some "/tmp/images_tok.zip" := by
  constructor <;> decide

/-- C1 (amended): `convert_and_save` never mutates the tool state — in
particular it never sets `downloaded` — so after a successful call that
returned an artifact path, a second call with the same token runs the
conversion again and returns the same path instead of null; marking the
job consumed is left entirely to code outside this function. -/
theorem convert_and_save_leaves_state_unchanged (env : ConvEnv) (st : ToolState)
    (token : String) :
    (convert_and_save env st token).2 = st ∧
    (∀ p, (convert_and_save env st token).1 = some p →
      (convert_and_save env (convert_and_save env st token).2 token).1 = some p) := by
  have hst : (convert_and_save env st token).2 = st := by
    unfold convert_and_save
    split
    · rfl
    · split
      · rfl
      · dsimp only
        split <;> rfl
  refine ⟨hst, ?_⟩
  intro p hp
  rw [hst]
  exact hp

/-- C1 witness for the amended theorem, at the concrete store `st_one`. -/
theorem convert_and_save_leaves_state_unchanged_witness :
    (convert_and_save env_ok (convert_and_save env_ok st_one "tok").2 "tok").1
      = some "/tmp/images_tok.zip" :=
  (convert_and_save_leaves_state_unchanged env_ok st_one "tok").2
    "/tmp/images_tok.zip" (by decide)

/-! ### C3 -/

/-- C3: for a token not present in the job store, and for a token whose job
is already marked downloaded, `convert_and_save` returns `None` and leaves
the state untouched. In the source these two checks (lines 107-112) run
before the `try` block and contain no raising statement, and the embedding
of `convert_and_save` is a total function because the `except` of lines
120-122 absorbs every conversion error, so no exception reaches the
caller. -/
theorem convert_and_save_unknown_or_consumed (env : ConvEnv) (st : ToolState)
    (token : String) :
    (lookup_token st.pending_conversions token = none →
      convert_and_save env st token = (none, st)) ∧
    (∀ c, lookup_token st.pending_conversions token = some c → c.downloaded = true →
      convert_and_save env st token = (none, st)) := by
  constructor
  · intro h
    unfold convert_and_save
    rw [h]
  · intro c h hd
    unfold convert_and_save
    rw [h]
    simp [hd]

/-- C3 witness: an unknown token on the empty store, and the consumed job
of `st_downloaded`. -/
theorem convert_and_save_unknown_or_consumed_witness :
    convert_and_save env_ok st_empty "missing" = (none, st_empty) ∧
    convert_and_save env_ok st_downloaded "tok" = (none, st_downloaded) :=
  ⟨(convert_and_save_unknown_or_consumed env_ok st_empty "missing").1 (by decide),
   (convert_and_save_unknown_or_consumed env_ok st_downloaded "tok").2
     {conv_v2i with downloaded := true} (by decide) (by decide)⟩

/-! ### C2 -/

/-- C2: for an images-to-video job whose archive holds no member with a
recognized image extension, `_images_to_video` fails with the empty-archive
error, the failure leaves the conversion step as a raised exception (an
`Except.error`, not a swallowed success), and `convert_and_save` then
returns `None` with the state — in particular the `downloaded` flag —
unchanged. -/
theorem images_to_video_empty_archive (env : ConvEnv) (st : ToolState)
    (token : String) (c : Conversion) (members : List String)
    (hl : lookup_token st.pending_conversions token = some c)
    (hd : c.downloaded = false)
    (ht : c.conversion_type = "images_to_video")
    (hf : (parse_int c.fps).isSome)
    (hm : env.archive_members c.file_path = some members)
    (hempty : members.filter is_image_file = []) :
    images_to_video env st.temp_dir token c = Except.error empty_zip_err ∧
    convert_and_save env st token = (none, st) := by
  obtain ⟨n, hn⟩ := Option.isSome_iff_exists.mp hf
  have himg : images_to_video env st.temp_dir token c = Except.error empty_zip_err := by
    unfold images_to_video
    rw [hn]
    dsimp only
    rw [hm]
    simp [hempty]
  have hv2i : (c.conversion_type == "video_to_images") = false := by
    rw [ht]; decide
  refine ⟨himg, ?_⟩
  unfold convert_and_save
  rw [hl]
  simp [hd, hv2i, himg, Except.map]

/-- Fixture: a zip archive with members but no image-extension member. -/
def env_noimg : ConvEnv where
  archive_members := fun _ => some ["readme.txt", "data.bin"]
  run_extract := fun _ => []
  ffmpeg_ok := true
  pil_ok := true

/-- Tool state holding exactly the job `conv_i2v` under token `tok`. -/
def st_zip : ToolState where
  pending_conversions := [("tok", conv_i2v)]
  temp_dir := "/tmp"
  error_message := ""
  output := ""

/-- C2 witness at a concrete archive with no image members. -/
theorem images_to_video_empty_archive_witness :
    images_to_video env_noimg "/tmp" "tok" conv_i2v = Except.error empty_zip_err ∧
    convert_and_save env_noimg st_zip "tok" = (none, st_zip) :=
  images_to_video_empty_archive env_noimg st_zip "tok" conv_i2v
    ["readme.txt", "data.bin"] (by decide) (by decide) (by decide) (by decide)
    (by decide) (by decide)

/-! ### C4 -/

/-- C4: `execute_tool` rejects any input whose reported size strictly
exceeds `2 * 1024^3` bytes, setting the too-large error message and
returning `False` without touching the job store, while an input of exactly
`2 * 1024^3` bytes passes the size check and (with a valid video filename)
is accepted. -/
theorem execute_tool_size_boundary (getsize : String → Option Nat)
    (st : ToolState) (input : InputParams) (token : String) (now : Int)
    (fi : FileInfo) (n : Nat)
    (hfile : input.file = some fi)
    (hsize : getsize fi.file_path = some n) :
    (n > 2 * 1024 * 1024 * 1024 →
      execute_tool getsize st input token now
        = ({st with error_message := size_err}, false)) ∧
    (n = 2 * 1024 * 1024 * 1024 →
      input.conversion_type = some "video_to_images" →
      is_video_file fi.filename = true →
      (execute_tool getsize st input token now).2 = true) := by
  constructor
  · intro hbig
    unfold execute_tool execute_tool_body
    rw [hfile]
    dsimp only
    rw [hsize]
    simp [hbig]
  · intro hn hct hv
    unfold execute_tool execute_tool_body
    rw [hfile]
    dsimp only
    rw [hsize, hct]
    have h1 : ¬ (n > 2 * 1024 * 1024 * 1024) := by omega
    have h2 : (("video_to_images" : String) == "images_to_video") = false := by decide
    simp [h1, h2, hv]

/-- Fixture: the `file` dict of a video upload. -/
def fi_v2i : FileInfo where
  file_path := "/up/v.mp4"
  filename := "v.mp4"

/-- Fixture: `input_params` for a video-to-images submission. -/
def input_v2i : InputParams where
  file := some fi_v2i
  conversion_type := some "video_to_images"
  fps := none
  quality := none
  image_format := none
  video_format := none

/-- C4 witness: one byte over the limit is rejected, the exact limit is
accepted. -/
theorem execute_tool_size_boundary_witness :
    execute_tool (fun _ => some (2 * 1024 * 1024 * 1024 + 1)) st_empty
        input_v2i "tok" 0
      = ({st_empty with error_message := size_err}, false) ∧
    (execute_tool (fun _ => some (2 * 1024 * 1024 * 1024)) st_empty
        input_v2i "tok" 0).2 = true :=
  ⟨(execute_tool_size_boundary (fun _ => some (2 * 1024 * 1024 * 1024 + 1))
      st_empty input_v2i "tok" 0 fi_v2i (2 * 1024 * 1024 * 1024 + 1)
      rfl rfl).1 (by omega),
   (execute_tool_size_boundary (fun _ => some (2 * 1024 * 1024 * 1024))
      st_empty input_v2i "tok" 0 fi_v2i (2 * 1024 * 1024 * 1024)
      rfl rfl).2 rfl rfl (by decide)⟩

/-! ### C5 -/

/-- C5: `cleanup_old_files` removes exactly the entries that are downloaded
or strictly older than one hour (3600 seconds): the surviving store is the
filter of the non-eligible entries, and an entry survives iff it is neither
downloaded nor older than one hour. -/
theorem cleanup_old_files_eligibility (fs : FileSys) (st : ToolState) (now : Int)
    (hnd : (st.pending_conversions.map Prod.fst).Nodup) :
    (cleanup_old_files fs st now).2.pending_conversions
        = st.pending_conversions.filter (fun e => !eligible now e.2) ∧
    (∀ e ∈ st.pending_conversions,
      (e ∈ (cleanup_old_files fs st now).2.pending_conversions
        ↔ ¬(e.2.downloaded = true ∨ now - e.2.timestamp > 3600))) := by
  have hfe := cleanup_pending_eq fs st now hnd
  refine ⟨hfe, ?_⟩
  intro e he
  rw [hfe, List.mem_filter]
  have hb : ((!eligible now e.2) = true)
      ↔ ¬(e.2.downloaded = true ∨ now - e.2.timestamp > 3600) := by
    simp [eligible]
    tauto
  constructor
  · rintro ⟨-, hbtrue⟩
    exact hb.mp hbtrue
  · intro h
    exact ⟨he, hb.mpr h⟩

/-- Fixture: an unconsumed job created at time 0. -/
def conv_old : Conversion := {conv_v2i with file_path := "/up/a.mp4", timestamp := 0}

/-- Fixture: a consumed job created at time 0. -/
def conv_done : Conversion := {conv_v2i with downloaded := true, timestamp := 0}

/-- Fixture: store with an unconsumed and a consumed job, both created at
time 0. -/
def st_sweep : ToolState where
  pending_conversions := [("a", conv_old), ("d", conv_done)]
  temp_dir := "/tmp"
  error_message := ""
  output := ""

/-- Fixture: an empty filesystem. -/
def fs0 : FileSys where
  files := []
  remove_fails := []

/-- C5 witness: the unconsumed job is removed at 61 minutes and kept at
59 minutes; the consumed job is removed with no time elapsed. -/
theorem cleanup_old_files_eligibility_witness :
    (("a", conv_old) ∉ (cleanup_old_files fs0 st_sweep 3660).2.pending_conversions) ∧
    (("a", conv_old) ∈ (cleanup_old_files fs0 st_sweep 3540).2.pending_conversions) ∧
    (("d", conv_done) ∉ (cleanup_old_files fs0 st_sweep 0).2.pending_conversions) := by
  refine ⟨?_, ?_, ?_⟩
  · intro hmem
    exact absurd (((cleanup_old_files_eligibility fs0 st_sweep 3660 (by decide)).2
      ("a", conv_old) (by decide)).mp hmem) (by decide)
  · exact ((cleanup_old_files_eligibility fs0 st_sweep 3540 (by decide)).2
      ("a", conv_old) (by decide)).mpr (by decide)
  · intro hmem
    exact absurd (((cleanup_old_files_eligibility fs0 st_sweep 0 (by decide)).2
      ("d", conv_done) (by decide)).mp hmem) (by decide)

/-! ### C6 -/

/-- Fixture: the source file's deletion raises, the artifact's would
succeed. -/
def fs_fail : FileSys where
  files := ["/up/v.mp4", "/tmp/images_tok.zip"]
  remove_fails := ["/up/v.mp4"]

/-- Fixture: store holding one consumed video-to-images job whose source
file deletion will fail. -/
def st_fail : ToolState where
  pending_conversions := [("tok", {conv_v2i with downloaded := true})]
  temp_dir := "/tmp"
  error_message := ""
  output := ""

/-- C6 counterexample: the claim says that when deleting one file of an
eligible entry fails, the remaining file deletions of that entry are still
attempted. Concretely, the eligible job's source `/up/v.mp4` fails to
delete and its artifact `/tmp/images_tok.zip` exists and would delete
successfully — yet after the sweep the artifact is still present (its
deletion was never attempted, because the raised error jumps over it to the
entry's `except` handler); only the store entry is removed. -/
theorem cleanup_skips_artifact_on_failure :
    (cleanup_old_files fs_fail st_fail 0).1.files
        = ["/up/v.mp4", "/tmp/images_tok.zip"] ∧
    (cleanup_old_files fs_fail st_fail 0).2.pending_conversions = [] := by
  constructor <;> decide

/-- C6 (amended): a file-deletion failure during the sweep is per-entry and
non-fatal: the eligible entry is still removed from the job store (the
surviving store is exactly the non-eligible filter, independent of any
deletion outcome) and the sweep continues over the remaining entries, but
the remaining file deletions of the failing entry itself are skipped — when
the source file's removal raises, the entry's filesystem state is returned
unchanged, the artifact deletion not attempted. -/
theorem cleanup_per_entry_failures_nonfatal (fs : FileSys) (st : ToolState)
    (now : Int) (hnd : (st.pending_conversions.map Prod.fst).Nodup) :
    (cleanup_old_files fs st now).2.pending_conversions
        = st.pending_conversions.filter (fun e => !eligible now e.2) ∧
    (∀ (fs' : FileSys) (td token : String) (c : Conversion),
      c.file_path ∈ fs'.files → c.file_path ∈ fs'.remove_fails →
      cleanup_entry td fs' token c = fs') := by
  refine ⟨cleanup_pending_eq fs st now hnd, ?_⟩
  intro fs' td token c hex hfail
  have h1 : fs'.files.contains c.file_path = true := List.elem_eq_true_of_mem hex
  have h2 : fs'.remove_fails.contains c.file_path = true := List.elem_eq_true_of_mem hfail
  unfold cleanup_entry remove_if_exists
  rw [h1, h2]
  simp

/-- C6 witness for the amended theorem at the concrete failing
filesystem. -/
theorem cleanup_per_entry_failures_nonfatal_witness :
    (cleanup_old_files fs_fail st_fail 0).2.pending_conversions = [] ∧
    cleanup_entry "/tmp" fs_fail "tok" {conv_v2i with downloaded := true}
      = fs_fail := by
  constructor
  · rw [(cleanup_per_entry_failures_nonfatal fs_fail st_fail 0 (by decide)).1]
    decide
  · exact (cleanup_per_entry_failures_nonfatal fs_fail st_fail 0 (by decide)).2
      fs_fail "/tmp" "tok" {conv_v2i with downloaded := true}
      (by decide) (by decide)

/-! ### Inversion helpers for the conversion functions -/

theorem video_to_images_ok_inv (env : ConvEnv) (td tok : String) (c : Conversion)
    (r : String × List String)
    (hok : video_to_images env td tok c = Except.ok r) :
    r.1 = path_join td ("images_" ++ tok ++ ".zip") ∧
    r.2 = (env.run_extract (path_join (path_join td ("images_" ++ tok))
            ("frame_%04d." ++ c.image_format))).filter
            (fun f => ends_with f ("." ++ c.image_format)) := by
  unfold video_to_images at hok
  split at hok
  · cases hok
  · split at hok
    · cases hok
    · injection hok with h
      rw [← h]
      exact ⟨rfl, rfl⟩

theorem images_to_video_ok_inv (env : ConvEnv) (td tok : String) (c : Conversion)
    (r : String × List (String × String))
    (hok : images_to_video env td tok c = Except.ok r) :
    ∃ members, env.archive_members c.file_path = some members ∧
      r.1 = path_join td ("video_" ++ tok ++ "." ++ c.video_format) ∧
      r.2 = frame_renames (members.filter is_image_file) := by
  unfold images_to_video at hok
  split at hok
  · cases hok
  · dsimp only at hok
    split at hok
    · cases hok
    · rename_i members hm
      refine ⟨members, hm, ?_⟩
      try dsimp only at hok
      split at hok
      · cases hok
      · split at hok
        · cases hok
        · split at hok
          · cases hok
          · split at hok
            · cases hok
            · injection hok with h
              rw [← h]
              exact ⟨rfl, rfl⟩

/-! ### Properties of the canonical renaming -/

theorem frame_renames_map_snd (l : List String) :
    (frame_renames l).map Prod.snd = List.insertionSort pyLe l := by
  unfold frame_renames
  rw [List.map_map]
  have hc : (Prod.snd ∘ fun p : Nat × String => ("frame_" ++ format04 p.1 ++ ".png", p.2))
      = Prod.snd := by
    funext p; rfl
  rw [hc, List.enum_map_snd]

theorem frame_renames_map_fst (l : List String) :
    (frame_renames l).map Prod.fst
      = (List.range (frame_renames l).length).map
          (fun i => "frame_" ++ format04 i ++ ".png") := by
  unfold frame_renames
  rw [List.map_map]
  have hc : (Prod.fst ∘ fun p : Nat × String => ("frame_" ++ format04 p.1 ++ ".png", p.2))
      = (fun i : Nat => "frame_" ++ format04 i ++ ".png") ∘ Prod.fst := by
    funext p; rfl
  rw [hc, ← List.map_map, List.enum_map_fst]
  simp

/-! ### C7 -/

/-- C7: in the images-to-video conversion the extracted image names are
sorted lexicographically (by code point, the Python `list.sort()` order on
`str`) before the canonical renaming: the original members listed in the
frame table of a successful conversion are exactly the image-extension
members of the archive in sorted order; and on the concrete archive
`["b.png", "a.png", "notes.txt"]` the frame placed first — `frame_0000.png`
— is `a.png`. -/
theorem images_to_video_sorts_frames :
    (∀ (env : ConvEnv) (td tok : String) (c : Conversion)
      (r : String × List (String × String)) (members : List String),
      env.archive_members c.file_path = some members →
      images_to_video env td tok c = Except.ok r →
      (r.2.map Prod.snd).Sorted pyLe ∧
      (r.2.map Prod.snd).Perm (members.filter is_image_file)) ∧
    images_to_video env_ok "/tmp" "tok" conv_i2v
      = Except.ok ("/tmp/video_tok.mp4",
          [("frame_0000.png", "a.png"), ("frame_0001.png", "b.png")]) := by
  constructor
  · intro env td tok c r members hm hok
    obtain ⟨members', hm', -, hr⟩ := images_to_video_ok_inv env td tok c r hok
    rw [hm] at hm'
    injection hm' with hmm
    rw [hr, ← hmm, frame_renames_map_snd]
    exact ⟨List.sorted_insertionSort pyLe _, List.perm_insertionSort pyLe _⟩
  · decide

/-- C7 witness: the general part applied to the concrete archive
`["b.png", "a.png", "notes.txt"]`. -/
theorem images_to_video_sorts_frames_witness :
    (([("frame_0000.png", "a.png"), ("frame_0001.png", "b.png")].map
        (Prod.snd (α := String))).Sorted pyLe) ∧
    (([("frame_0000.png", "a.png"), ("frame_0001.png", "b.png")].map
        (Prod.snd (α := String))).Perm
      (["b.png", "a.png", "notes.txt"].filter is_image_file)) :=
  images_to_video_sorts_frames.1 env_ok "/tmp" "tok" conv_i2v
    ("/tmp/video_tok.mp4", [("frame_0000.png", "a.png"), ("frame_0001.png", "b.png")])
    ["b.png", "a.png", "notes.txt"] rfl (by decide)

/-! ### C8 -/

/-- C8: a successful video-to-images conversion returns exactly the path
`<tempDir>/images_<token>.zip` and zips the files that the engine produced
from the scratch pattern `<scratchDir>/frame_%04d.<imageFormat>`; a
successful images-to-video conversion returns exactly
`<tempDir>/video_<token>.<videoFormat>`, and its scratch frame files are
named `frame_<i zero-padded to 4>.png` in sequence order. The hypotheses
pin the temp directory to the normal case of `os.path.join` (non-empty, no
trailing slash). -/
theorem artifact_path_conventions (env : ConvEnv) (td tok : String)
    (c : Conversion) (hne : td ≠ "") (hslash : ends_with td "/" = false) :
    (∀ r : String × List String, video_to_images env td tok c = Except.ok r →
      r.1 = td ++ "/" ++ ("images_" ++ tok ++ ".zip") ∧
      r.2 = (env.run_extract (path_join (path_join td ("images_" ++ tok))
              ("frame_%04d." ++ c.image_format))).filter
              (fun f => ends_with f ("." ++ c.image_format))) ∧
    (∀ r : String × List (String × String),
      images_to_video env td tok c = Except.ok r →
      r.1 = td ++ "/" ++ ("video_" ++ tok ++ "." ++ c.video_format) ∧
      r.2.map Prod.fst = (List.range r.2.length).map
        (fun i => "frame_" ++ format04 i ++ ".png")) := by
  have hpj : ∀ name, path_join td name = td ++ "/" ++ name := by
    intro name
    unfold path_join
    rw [if_neg hne, if_neg (by rw [hslash]; exact Bool.false_ne_true)]
  constructor
  · intro r hok
    obtain ⟨h1, h2⟩ := video_to_images_ok_inv env td tok c r hok
    exact ⟨by rw [h1, hpj], h2⟩
  · intro r hok
    obtain ⟨members, -, h1, h2⟩ := images_to_video_ok_inv env td tok c r hok
    refine ⟨by rw [h1, hpj], ?_⟩
    rw [h2, frame_renames_map_fst]

/-- C8 witness: both conventions at the concrete environment `env_ok`,
temp directory `/tmp` and token `tok`. -/
theorem artifact_path_conventions_witness :
    (("/tmp/images_tok.zip" : String)
        = "/tmp" ++ "/" ++ ("images_" ++ "tok" ++ ".zip") ∧
      (["frame_0001.png", "frame_0002.png"] : List String)
        = (env_ok.run_extract (path_join (path_join "/tmp" ("images_" ++ "tok"))
            ("frame_%04d." ++ conv_v2i.image_format))).filter
            (fun f => ends_with f ("." ++ conv_v2i.image_format))) ∧
    (("/tmp/video_tok.mp4" : String)
        = "/tmp" ++ "/" ++ ("video_" ++ "tok" ++ "." ++ conv_i2v.video_format) ∧
      ([("frame_0000.png", "a.png"), ("frame_0001.png", "b.png")].map
          (Prod.fst (β := String)))
        = (List.range ([("frame_0000.png", "a.png"),
            ("frame_0001.png", "b.png")] : List (String × String)).length).map
            (fun i => "frame_" ++ format04 i ++ ".png")) :=
  ⟨(artifact_path_conventions env_ok "/tmp" "tok" conv_v2i (by decide)
      (by decide)).1 ("/tmp/images_tok.zip", ["frame_0001.png", "frame_0002.png"])
      (by decide),
   (artifact_path_conventions env_ok "/tmp" "tok" conv_i2v (by decide)
      (by decide)).2 ("/tmp/video_tok.mp4",
        [("frame_0000.png", "a.png"), ("frame_0001.png", "b.png")])
      (by decide)⟩

/-! ### C9 -/

/-- C9: for a `conversion_type` that is neither `"video_to_images"` nor
`"images_to_video"` (e.g. `"gif_to_video"`), `execute_tool` performs no
filename-extension validation at all — any filename is accepted once the
size check passes — and stores a job carrying that type verbatim; and
`convert_and_save` routes every job whose type is not `"video_to_images"`
through the images-to-video path. -/
theorem unknown_conversion_type_routing (getsize : String → Option Nat)
    (st : ToolState) (input : InputParams) (token : String) (now : Int)
    (fi : FileInfo) (n : Nat) (ct : String)
    (hfile : input.file = some fi)
    (hct : input.conversion_type = some ct)
    (h1 : ct ≠ "video_to_images") (h2 : ct ≠ "images_to_video")
    (hsize : getsize fi.file_path = some n)
    (hn : ¬ n > 2 * 1024 * 1024 * 1024) :
    (execute_tool getsize st input token now
      = ({st with
            pending_conversions := dict_insert st.pending_conversions token
              { file_path := fi.file_path
                filename := fi.filename
                conversion_type := ct
                fps := input.fps.getD "10"
                quality := input.quality.getD "medium"
                image_format := input.image_format.getD "png"
                video_format := input.video_format.getD "mp4"
                timestamp := now
                downloaded := false }
            output := create_output_html token images_to_video_label}, true)) ∧
    (∀ (env : ConvEnv) (st' : ToolState) (tk : String) (c : Conversion),
      lookup_token st'.pending_conversions tk = some c →
      c.downloaded = false →
      c.conversion_type ≠ "video_to_images" →
      ((∀ p, images_to_video env st'.temp_dir tk c = Except.ok p →
          (convert_and_save env st' tk).1 = some p.1) ∧
       (∀ e, images_to_video env st'.temp_dir tk c = Except.error e →
          (convert_and_save env st' tk).1 = none))) := by
  constructor
  · have hb1 : (ct == "video_to_images") = false := beq_eq_false_iff_ne.mpr h1
    have hb2 : (ct == "images_to_video") = false := beq_eq_false_iff_ne.mpr h2
    unfold execute_tool execute_tool_body
    rw [hfile]
    dsimp only
    rw [hsize, hct]
    simp [hn, hb1, hb2]
  · intro env st' tk c hl hd hcv
    have hb : (c.conversion_type == "video_to_images") = false :=
      beq_eq_false_iff_ne.mpr hcv
    constructor
    · intro p hok
      unfold convert_and_save
      rw [hl]
      simp [hd, hb, hok, Except.map]
    · intro e herr
      unfold convert_and_save
      rw [hl]
      simp [hd, hb, herr, Except.map]

/-- Fixture: a submission with the unknown type `gif_to_video` and a
filename that matches neither the video- nor the zip-extension check. -/
def input_gif : InputParams where
  file := some { file_path := "/up/x.gif", filename := "x.txt" }
  conversion_type := some "gif_to_video"
  fps := none
  quality := none
  image_format := none
  video_format := none

/-- Fixture: the stored job an unknown-type submission produces. -/
def conv_gif : Conversion where
  file_path := "/up/x.gif"
  filename := "x.txt"
  conversion_type := "gif_to_video"
  fps := "10"
  quality := "medium"
  image_format := "png"
  video_format := "mp4"
  timestamp := 0
  downloaded := false

/-- Fixture: store holding the `gif_to_video` job under token `tok`. -/
def st_gif : ToolState where
  pending_conversions := [("tok", conv_gif)]
  temp_dir := "/tmp"
  error_message := ""
  output := ""

/-- C9 witness: the `gif_to_video` submission with a `.txt` filename is
accepted, and delivering the stored job runs the images-to-video path. -/
theorem unknown_conversion_type_routing_witness :
    (execute_tool (fun _ => some 5) st_empty input_gif "tok" 0).2 = true ∧
    (convert_and_save env_ok st_gif "tok").1 = some "/tmp/video_tok.mp4" := by
  constructor
  · rw [(unknown_conversion_type_routing (fun _ => some 5) st_empty input_gif
      "tok" 0 { file_path := "/up/x.gif", filename := "x.txt" } 5 "gif_to_video"
      rfl rfl (by decide) (by decide) rfl (by decide)).1]
  · exact ((unknown_conversion_type_routing (fun _ => some 5) st_empty input_gif
      "tok" 0 { file_path := "/up/x.gif", filename := "x.txt" } 5 "gif_to_video"
      rfl rfl (by decide) (by decide) rfl (by decide)).2 env_ok st_gif "tok"
      conv_gif (by decide) rfl (by decide)).1
      ("/tmp/video_tok.mp4", [("frame_0000.png", "a.png"), ("frame_0001.png", "b.png")])
      (by decide)

/-! ### C10 -/

/-- C10: `execute_tool` never propagates an exception: whenever its body
raises (in the embedding, evaluates to `Except.error`), the handler stores
the message prefixed with the processing-error text and returns `False`;
in particular a `file_path` pointing to a nonexistent file — where
`os.path.getsize` raises — yields `False` with the error message set and
the job store untouched. -/
theorem execute_tool_catches_exceptions (getsize : String → Option Nat)
    (st : ToolState) (input : InputParams) (token : String) (now : Int) :
    (∀ e, execute_tool_body getsize st input token now = Except.error e →
      execute_tool getsize st input token now
        = ({st with error_message := processing_err ++ " " ++ e}, false)) ∧
    (∀ fi, input.file = some fi → getsize fi.file_path = none →
      execute_tool getsize st input token now
        = ({st with error_message := processing_err ++ " "
            ++ ("[Errno 2] No such file or directory: " ++ fi.file_path)},
          false)) := by
  constructor
  · intro e he
    unfold execute_tool
    rw [he]
  · intro fi hfile hnone
    have hbody : execute_tool_body getsize st input token now
        = Except.error ("[Errno 2] No such file or directory: " ++ fi.file_path) := by
      unfold execute_tool_body
      rw [hfile]
      dsimp only
      rw [hnone]
    unfold execute_tool
    rw [hbody]

/-- C10 witness: a submission whose file does not exist on disk. -/
theorem execute_tool_catches_exceptions_witness :
    execute_tool (fun _ => none) st_empty input_v2i "tok" 0
      = ({st_empty with error_message := processing_err ++ " "
          ++ ("[Errno 2] No such file or directory: " ++ "/up/v.mp4")}, false) :=
  (execute_tool_catches_exceptions (fun _ => none) st_empty input_v2i "tok" 0).2
    fi_v2i rfl rfl
